import Mathlib

/-!
# Verification of the MonarchMoney Python SDK authentication core

Shallow embedding of `src/monarchmoney/monarchmoney.py` (class `MonarchMoney`)
and `src/monarchmoney/cli.py` (`MonarchMoneyCLI.check_session`).

Modelling conventions:
* Python dicts with string keys are association lists (`dget`/`dset`);
  `dset` overwrites an existing key in place and otherwise appends,
  matching CPython dict insertion-order semantics.
* `self._headers` is modelled as `Option` of a dict so that the
  `if self._headers is None` check in `_get_graphql_client` is expressible;
  the constructor always assigns `some` of a dict, exactly as `__init__`
  unconditionally assigns a dict literal.
* Python truthiness of an optional string (`if token:`,
  `if start_date and end_date:`) is `strTruthy`: `None` and `""` are falsy.
* The f-string rendering of an optional string (`f"Token {self._token}"`)
  is `pyStr`: `None` renders as `"None"`.
* Network I/O is made explicit: each method that posts over the network is a
  pure function of the instance state and of the (mocked) server response,
  returning the raised exception (if any), the mutated state — Python
  attribute mutations survive a raised exception, so the post-state is
  returned even on error — and the list of network calls issued.
* The filesystem used by `save_session`/`load_session` is an association
  list from paths to pickled `{"token": ...}` dicts; `pickle` round-trips
  values exactly.
-/

namespace MonarchMoneySDK

/-- Lookup in a Python dict modelled as an association list. -/
def dget {α : Type} : List (String × α) → String → Option α
  | [], _ => none
  | p :: rest, k => if p.1 = k then some p.2 else dget rest k

/-- Python dict assignment `d[k] = v`: overwrite in place, else append.
(The dicts built by this code have pairwise-distinct keys, so overwriting
the first occurrence matches CPython dict semantics.) -/
def dset {α : Type} : List (String × α) → String → α → List (String × α)
  | [], k, v => [(k, v)]
  | p :: rest, k, v =>
    if p.1 = k then (k, v) :: rest else p :: dset rest k v

/-- Python str() of an optional string, as used inside an f-string. -/
def pyStr : Option String → String
  | none => "None"
  | some s => s

/-- Python truthiness of an optional string: `None` and `""` are falsy. -/
def strTruthy : Option String → Bool
  | none => false
  | some s => s != ""

/-- The exception classes raised by the SDK (`monarchmoney.py` lines 27-36)
together with the builtin Python exceptions its code paths can raise. -/
inductive PyExc where
  | requireMFA (msg : String)
  | loginFailed (msg : String)
  | requestFailed (msg : String)
  | exception (msg : String)
  | keyError (key : String)
  | jsonDecodeError
  | fileNotFound (path : String)
deriving Repr, DecidableEq

/-- The `filters` dict built by `get_transactions`; `startDate`/`endDate`
are `none` when the corresponding key is absent from the dict. -/
structure TxnFilters where
  search : String
  categories : List String
  accounts : List String
  tags : List String
  startDate : Option String
  endDate : Option String
deriving Repr, DecidableEq

/-- The `variables` dict built by `get_transactions`. -/
structure TxnVariables where
  offset : Nat
  limit : Nat
  orderBy : String
  filters : TxnFilters
deriving Repr, DecidableEq

/-- An outgoing network request: the login POST, or a GraphQL POST carrying
the headers the transport was configured with (and, for
`get_transactions`, the variables). -/
inductive NetCall where
  | loginPost
  | graphqlPost (headers : List (String × String)) (vars : Option TxnVariables)
deriving Repr, DecidableEq

/-- The mutable attributes of a `MonarchMoney` instance. -/
structure MMState where
  headers : Option (List (String × String))
  session_file : String
  token : Option String
  timeout : Nat
deriving Repr, DecidableEq

/-- The header dict literal assigned by `__init__` before the token check. -/
def baseHeaders : List (String × String) :=
  [("Accept", "application/json"),
   ("Client-Platform", "web"),
   ("Content-Type", "application/json"),
   ("User-Agent", "MonarchMoneyAPI (https://github.com/hammem/monarchmoney)")]

/-- `MonarchMoney.__init__(session_file, timeout, token)`: assigns the header
dict, then `if token:` adds the Authorization header. -/
def init (session_file : String) (timeout : Nat) (token : Option String) :
    MMState :=
  { headers := some (if strTruthy token then
        dset baseHeaders "Authorization" ("Token " ++ pyStr token)
      else baseHeaders),
    session_file := session_file,
    token := token,
    timeout := timeout }

/-- `MonarchMoney.set_token`: assigns `self._token` and nothing else. -/
def set_token (st : MMState) (token : Option String) : MMState :=
  { st with token := token }

/-- `self._headers[k] = v` (the header dict is always present in practice). -/
def setHeader (st : MMState) (k v : String) : MMState :=
  { st with headers := st.headers.map (fun h => dset h k v) }

/-- The Authorization header the instance would send, if any. -/
def authHeader (st : MMState) : Option String :=
  match st.headers with
  | none => none
  | some h => dget h "Authorization"

/-- The pickled session artifact written by `save_session`:
the dict `{"token": self._token}`. -/
structure SessionData where
  token : Option String
deriving Repr, DecidableEq

/-- The filesystem visible to `save_session`/`load_session`. -/
abbrev FS := List (String × SessionData)

def fsGet (fs : FS) (path : String) : Option SessionData := dget fs path

def fsSet (fs : FS) (path : String) (v : SessionData) : FS := dset fs path v

/-- `os.path.exists`. -/
def fsExists (fs : FS) (path : String) : Bool := (fsGet fs path).isSome

/-- `MonarchMoney.save_session`: pickles `{"token": self._token}` to
`filename` (defaulting to `self._session_file`), overwriting. -/
def save_session (st : MMState) (fs : FS) (filename : Option String) : FS :=
  let f := filename.getD st.session_file
  fsSet fs f ⟨st.token⟩

/-- `MonarchMoney.load_session`: unpickles, `set_token(data["token"])`, then
`self._headers["Authorization"] = f"Token {self._token}"`.
Raises `FileNotFoundError` if the file is absent. -/
def load_session (st : MMState) (fs : FS) (filename : Option String) :
    Option PyExc × MMState :=
  let f := filename.getD st.session_file
  match fsGet fs f with
  | none => (some (.fileNotFound f), st)
  | some data =>
    let st1 := set_token st data.token
    (none, setHeader st1 "Authorization" ("Token " ++ pyStr st1.token))

/-- A mocked HTTP response to the login POST. `body` is the JSON object the
response decodes to (string-valued fields suffice for this API);
`body = none` models a body that is not valid JSON. `text` stands for the
f-string rendering of `resp.text` in the raw-failure message. -/
structure LoginResp where
  status : Nat
  reason : String
  body : Option (List (String × String))
  text : String
deriving Repr, DecidableEq

/-- `MonarchMoney._login_user` (one login POST; `email`, `password` and the
optional TOTP only populate the posted JSON body, which does not affect the
outcome given the mocked response, so they are not parameters here):
403 raises `RequireMFAException`; any other non-200 raises
`LoginFailedException` with status and reason; 200 stores the token and
sets the Authorization header. -/
def login_user (st : MMState) (resp : LoginResp) : Option PyExc × MMState :=
  if resp.status = 403 then
    (some (.requireMFA "Multi-Factor Auth Required"), st)
  else if resp.status ≠ 200 then
    (some (.loginFailed ("HTTP Code " ++ toString resp.status ++ ": "
        ++ resp.reason)), st)
  else
    match resp.body with
    | none => (some .jsonDecodeError, st)
    | some body =>
      match dget body "token" with
      | none => (some (.keyError "token"), st)
      | some tok =>
        let st1 := set_token st (some tok)
        (none, setHeader st1 "Authorization" ("Token " ++ pyStr st1.token))

/-- The exception the `try` block of `_multi_factor_authenticate` raises on a
non-200 response: `RequireMFAException(detail)` when the JSON body has a
`"detail"` field, `LoginFailedException(error_code)` when it has an
`"error_code"` field, `LoginFailedException("Unrecognized ...")` otherwise,
and the JSON decode error when the body is not JSON. -/
def mfaTryBlockExc (resp : LoginResp) : PyExc :=
  match resp.body with
  | none => .jsonDecodeError
  | some body =>
    match dget body "detail" with
    | some d => .requireMFA d
    | none =>
      match dget body "error_code" with
      | some ec => .loginFailed ec
      | none => .loginFailed ("Unrecognized error message: '" ++ resp.text ++ "'")

/-- `MonarchMoney._multi_factor_authenticate` (one login POST; credentials
and code only populate the posted body). On a non-200 response the `try`
block raises `mfaTryBlockExc resp` — but the bare `except:` that follows
catches every exception, including the `RequireMFAException` and
`LoginFailedException` the block itself just raised, and re-raises
`LoginFailedException` with the raw HTTP status instead. On 200 the token
is stored and the Authorization header set. -/
def multi_factor_authenticate (st : MMState) (resp : LoginResp) :
    Option PyExc × MMState :=
  if resp.status ≠ 200 then
    -- the try block raises `mfaTryBlockExc resp`; the bare except catches it:
    (some (.loginFailed ("HTTP Code " ++ toString resp.status ++ ": "
        ++ resp.reason ++ "\nRaw response: " ++ resp.text)), st)
  else
    match resp.body with
    | none => (some .jsonDecodeError, st)
    | some body =>
      match dget body "token" with
      | none => (some (.keyError "token"), st)
      | some tok =>
        let st1 := set_token st (some tok)
        (none, setHeader st1 "Authorization" ("Token " ++ pyStr st1.token))

/-- Result of `MonarchMoney.login`: raised exception (if any), the instance
state and filesystem afterwards, and the network calls issued. -/
structure LoginResult where
  exc : Option PyExc
  st : MMState
  fs : FS
  calls : List NetCall
deriving Repr, DecidableEq

/-- `MonarchMoney.login(email, password, use_saved_session, save_session,
mfa_secret_key)` given a mocked response `resp` to the primary login POST
(consulted only if that POST happens). -/
def login (st : MMState) (fs : FS) (email password : Option String)
    (use_saved_session save_session_flag : Bool) (resp : LoginResp) :
    LoginResult :=
  if use_saved_session && fsExists fs st.session_file then
    let r := load_session st fs (some st.session_file)
    ⟨r.1, r.2, fs, []⟩
  else if email = none ∨ password = none ∨ email = some "" ∨ password = some ""
  then
    ⟨some (.loginFailed
        "Email and password are required to login when not using a saved session."),
      st, fs, []⟩
  else
    let r := login_user st resp
    match r.1 with
    | some e => ⟨some e, r.2, fs, [.loginPost]⟩
    | none =>
      if save_session_flag then
        ⟨none, r.2, save_session r.2 fs (some r.2.session_file), [.loginPost]⟩
      else ⟨none, r.2, fs, [.loginPost]⟩

/-- `MonarchMoney._get_graphql_client`: raises `LoginFailedException` if
`self._headers is None`, otherwise builds a client configured with exactly
`self._headers`. -/
def get_graphql_client (st : MMState) :
    Except PyExc (List (String × String)) :=
  match st.headers with
  | none => .error (.loginFailed
      "Make sure you call login() first or provide a session token!")
  | some h => .ok h

/-- `MonarchMoney.gql_call`: builds the client, then executes the operation —
issuing one GraphQL POST carrying the client's headers (and the supplied
variables, when they are the `get_transactions` ones we track). -/
def gql_call (st : MMState) (vars : Option TxnVariables) :
    Option PyExc × List NetCall :=
  match get_graphql_client st with
  | .error e => (some e, [])
  | .ok h => (none, [.graphqlPost h vars])

/-- `MonarchMoney.get_transactions`: builds the `variables` dict; adds both
date filters when both `start_date` and `end_date` are truthy; raises
`Exception` when exactly one is truthy; otherwise leaves the date filters
absent; then delegates to `gql_call`. -/
def get_transactions (st : MMState) (limit offset : Nat)
    (start_date end_date : Option String) (search : String)
    (category_ids account_ids tag_ids : List String) :
    Option PyExc × List NetCall :=
  let base : TxnFilters :=
    ⟨search, category_ids, account_ids, tag_ids, none, none⟩
  if strTruthy start_date && strTruthy end_date then
    gql_call st (some ⟨offset, limit, "date",
      { base with startDate := start_date, endDate := end_date }⟩)
  else if strTruthy start_date != strTruthy end_date then
    (some (.exception
        "You must specify both a startDate and endDate, not just one of them."),
      [])
  else
    gql_call st (some ⟨offset, limit, "date", base⟩)

/-- The `Authenticated` state of the spec's session state machine: a bearer
token is stored on the instance. -/
def isAuthenticated (st : MMState) : Bool := st.token.isSome

/-- The session artifact as seen by `MonarchMoneyCLI.check_session`:
its last-modification time, or `none` when `stat` fails on it (the
"corrupt / timestamp unreadable" case). Times are integers in an
arbitrary fixed unit; `ttl` is measured in the same unit. -/
structure SessionArtifact where
  mtime : Option Int
deriving Repr, DecidableEq

/-- `MonarchMoneyCLI.check_session`: returns `False` when no artifact exists;
otherwise computes `age = now - mtime` and returns `age < ttl`, unlinking
the artifact when expired; a failure reading the timestamp is caught,
the artifact unlinked, and `False` returned. The second component is the
artifact remaining on disk after the call. -/
def check_session (artifact : Option SessionArtifact) (ttl now : Int) :
    Bool × Option SessionArtifact :=
  match artifact with
  | none => (false, none)
  | some a =>
    match a.mtime with
    | none => (false, none)
    | some m =>
      let age := now - m
      if age < ttl then (true, some a)
      else (false, none)

/-- `MonarchMoneyCLI.get_session_ttl`, in minutes: 15 in production
(0.25 hours), 60 otherwise (1 hour). `env` is `MONARCH_ENV`,
defaulting to "development". -/
def get_session_ttl_minutes (env : Option String) : Nat :=
  if (env.getD "development").toLower = "production" then 15 else 60

/-! ## Helper lemmas -/

/-- Writing a key into a dict makes lookup of that key return the value. -/
theorem dget_dset_self {α : Type} (d : List (String × α)) (k : String)
    (v : α) : dget (dset d k v) k = some v := by
  induction d with
  | nil => simp [dget, dset]
  | cons p rest ih =>
    by_cases h : p.1 = k
    · simp [dget, dset, h]
    · simp [dget, dset, h, ih]

/-! ## Claims -/

/-- C1: the spec claims `gql_call` with no token set fails with
`UnauthenticatedError` ("Make sure you call login() first...") and issues
zero network calls. On the code this guard is dead: `_get_graphql_client`
checks `self._headers is None`, but `__init__` unconditionally assigns a
header dict, so `headers` is never `none` whatever the token; a no-token
`gql_call` therefore builds the client and issues a GraphQL POST whose
headers carry no Authorization entry at all. -/
theorem C1_gql_call_without_token_issues_network_call (f : String) (n : Nat) :
    (∀ tok : Option String, (init f n tok).headers ≠ none)
  ∧ gql_call (init f n none) none
      = (none, [NetCall.graphqlPost baseHeaders none])
  ∧ dget baseHeaders "Authorization" = none := by
  refine ⟨fun tok => by simp [init], rfl, by decide⟩

/-- C2 counterexample: login with an empty email raises the very same
exception class, `LoginFailedException`, that server-side login failures
raise — there is no separate `InvalidCredentialsError` distinguishable by
type, only a distinct message string. -/
theorem C2_counterexample :
    (login (init ".mm/mm_session.pickle" 10 none) [] (some "")
        (some "hunter2") false true ⟨200, "OK", some [("token", "tok")], ""⟩).exc
      = some (.loginFailed
          "Email and password are required to login when not using a saved session.")
  ∧ (login (init ".mm/mm_session.pickle" 10 none) [] (some "user@example.com")
        (some "hunter2") false true ⟨500, "Server Error", none, ""⟩).exc
      = some (.loginFailed "HTTP Code 500: Server Error") := by
  exact ⟨rfl, rfl⟩

/-- C2 amended: for every combination of absent or empty email and password
(with `use_saved_session` false or no persisted session present), `login`
raises `LoginFailedException` with the fixed message "Email and password
are required to login when not using a saved session." — the same
exception class as other login failures, distinguishable only by message
text — makes no network call, and leaves the instance state unchanged. -/
theorem C2_empty_credentials_raise_login_failed
    (st : MMState) (fs : FS) (email password : Option String)
    (use_saved save_flag : Bool) (resp : LoginResp)
    (hsess : use_saved = false ∨ fsExists fs st.session_file = false)
    (hempty : email = none ∨ password = none ∨ email = some ""
      ∨ password = some "") :
    (login st fs email password use_saved save_flag resp).exc
      = some (.loginFailed
          "Email and password are required to login when not using a saved session.")
  ∧ (login st fs email password use_saved save_flag resp).calls = []
  ∧ (login st fs email password use_saved save_flag resp).st = st := by
  have hc : (use_saved && fsExists fs st.session_file) = false := by
    rcases hsess with h | h <;> simp [h]
  unfold login
  rw [hc]
  simp only [Bool.false_eq_true, if_false, if_pos hempty]
  exact ⟨trivial, trivial, trivial⟩

/-- C2 witness. -/
theorem C2_empty_credentials_witness :
    (login (init "f" 10 none) [] none (some "pw") false true
        ⟨200, "OK", none, ""⟩).exc
      = some (.loginFailed
          "Email and password are required to login when not using a saved session.")
  ∧ (login (init "f" 10 none) [] none (some "pw") false true
        ⟨200, "OK", none, ""⟩).calls = []
  ∧ (login (init "f" 10 none) [] none (some "pw") false true
        ⟨200, "OK", none, ""⟩).st = init "f" 10 none :=
  C2_empty_credentials_raise_login_failed (init "f" 10 none) [] none
    (some "pw") false true ⟨200, "OK", none, ""⟩ (Or.inl rfl) (Or.inl rfl)

/-- C3: the spec claims a non-success `completeMfa` response carrying a
structured `detail`/`error_code` is surfaced verbatim as
`MFARequiredError`/`LoginFailedError`. The `try` block of
`_multi_factor_authenticate` indeed computes that exception
(`mfaTryBlockExc`) — but the bare `except:` that follows catches the very
exception the block just raised and replaces it with
`LoginFailedException` carrying the raw HTTP status, so the structured
detail is never surfaced to the caller. -/
theorem C3_bare_except_swallows_structured_detail :
    mfaTryBlockExc ⟨403, "Forbidden", some [("detail", "Invalid code")], "raw"⟩
      = .requireMFA "Invalid code"
  ∧ (multi_factor_authenticate (init "f" 10 none)
        ⟨403, "Forbidden", some [("detail", "Invalid code")], "raw"⟩).1
      = some (.loginFailed "HTTP Code 403: Forbidden\nRaw response: raw") := by
  exact ⟨rfl, rfl⟩

/-- C4: on a primary login answered with HTTP 403, `login` raises
`RequireMFAException` ("MFARequiredError"), stores no token (the session
is left awaiting MFA, not `Authenticated`); a subsequent
`_multi_factor_authenticate` whose response is HTTP 200 with a token
stores that token, sets the Authorization header, and reaches
`Authenticated`. -/
theorem C4_mfa_challenge_then_complete
    (f : String) (n : Nat) (fs : FS) (e p : String) (save_flag : Bool)
    (resp1 resp2 : LoginResp) (b : List (String × String)) (t : String)
    (he : e ≠ "") (hp : p ≠ "") (h1 : resp1.status = 403)
    (h2 : resp2.status = 200) (hb : resp2.body = some b)
    (ht : dget b "token" = some t) :
    login (init f n none) fs (some e) (some p) false save_flag resp1
      = ⟨some (.requireMFA "Multi-Factor Auth Required"), init f n none, fs,
          [.loginPost]⟩
  ∧ isAuthenticated (init f n none) = false
  ∧ (multi_factor_authenticate (init f n none) resp2).1 = none
  ∧ (multi_factor_authenticate (init f n none) resp2).2.token = some t
  ∧ isAuthenticated (multi_factor_authenticate (init f n none) resp2).2 = true
  ∧ authHeader (multi_factor_authenticate (init f n none) resp2).2
      = some ("Token " ++ t) := by
  have hne : ¬(some e = none ∨ some p = none ∨ some e = some ""
      ∨ some p = some "") := by simp [he, hp]
  refine ⟨?_, rfl, ?_, ?_, ?_, ?_⟩
  · unfold login
    rw [if_neg (by simp), if_neg hne]
    unfold login_user
    rw [if_pos h1]
  all_goals
    unfold multi_factor_authenticate
    rw [if_neg (by simp [h2])]
    simp [hb, ht, set_token, setHeader, isAuthenticated, authHeader, init,
      strTruthy, pyStr, dget_dset_self]

/-- C4 witness. -/
theorem C4_mfa_challenge_then_complete_witness :
    login (init "f" 10 none) [] (some "a@b.c") (some "pw") false false
        ⟨403, "Forbidden", none, ""⟩
      = ⟨some (.requireMFA "Multi-Factor Auth Required"), init "f" 10 none, [],
          [.loginPost]⟩
  ∧ isAuthenticated (init "f" 10 none) = false
  ∧ (multi_factor_authenticate (init "f" 10 none)
        ⟨200, "OK", some [("token", "tok123")], ""⟩).1 = none
  ∧ (multi_factor_authenticate (init "f" 10 none)
        ⟨200, "OK", some [("token", "tok123")], ""⟩).2.token = some "tok123"
  ∧ isAuthenticated (multi_factor_authenticate (init "f" 10 none)
        ⟨200, "OK", some [("token", "tok123")], ""⟩).2 = true
  ∧ authHeader (multi_factor_authenticate (init "f" 10 none)
        ⟨200, "OK", some [("token", "tok123")], ""⟩).2
      = some ("Token " ++ "tok123") :=
  C4_mfa_challenge_then_complete "f" 10 [] "a@b.c" "pw" false
    ⟨403, "Forbidden", none, ""⟩ ⟨200, "OK", some [("token", "tok123")], ""⟩
    [("token", "tok123")] "tok123" (by decide) (by decide) rfl rfl rfl rfl

/-- C5 counterexample: with the empty-string token — a legal `token` value
accepted by the constructor — the token value itself round-trips exactly
through `save_session`/`load_session`, but the authorization headers
differ: Python truthiness makes `__init__` skip the Authorization header
for `token=""`, while `load_session` unconditionally sets it to
`"Token "`. The two instances therefore issue GraphQL calls with
different headers, refuting header round-trip fidelity as stated. -/
theorem C5_counterexample :
    (load_session (init "s" 10 none)
        (save_session (init "s" 10 (some "")) [] none) none).2.token = some ""
  ∧ authHeader (load_session (init "s" 10 none)
        (save_session (init "s" 10 (some "")) [] none) none).2 = some "Token "
  ∧ authHeader (init "s" 10 (some "")) = none
  ∧ gql_call (load_session (init "s" 10 none)
        (save_session (init "s" 10 (some "")) [] none) none).2 none
      ≠ gql_call (init "s" 10 (some "")) none := by
  refine ⟨rfl, rfl, rfl, by decide⟩

/-- C5 amended: for every non-empty token value `t`, a session saved from an
instance constructed with `t` and loaded via `load_session` on a fresh
instance yields exactly the original token, and a subsequent `gql_call`
carries an authorization header ("Token " ++ t) identical to the original
instance's — indeed the two GraphQL calls are identical. (For the
empty-string token the token value still round-trips exactly, but the
fresh instance sends "Token " while the original sends no Authorization
header, per the counterexample.) -/
theorem C5_roundtrip_nonempty_token
    (t f g : String) (n m : Nat) (fs : FS) (ht : t ≠ "") :
    (load_session (init g m none)
        (save_session (init f n (some t)) fs none) (some f)).1 = none
  ∧ (load_session (init g m none)
        (save_session (init f n (some t)) fs none) (some f)).2.token = some t
  ∧ authHeader (load_session (init g m none)
        (save_session (init f n (some t)) fs none) (some f)).2
      = some ("Token " ++ t)
  ∧ authHeader (init f n (some t)) = some ("Token " ++ t)
  ∧ gql_call (load_session (init g m none)
        (save_session (init f n (some t)) fs none) (some f)).2 none
      = gql_call (init f n (some t)) none := by
  have htr : strTruthy (some t) = true := by simp [strTruthy, ht]
  unfold load_session save_session
  simp [fsGet, fsSet, dget_dset_self, init, set_token, setHeader, authHeader,
    htr, pyStr, gql_call, get_graphql_client]
  rfl

/-- C5 amended witness. -/
theorem C5_roundtrip_nonempty_token_witness :
    (load_session (init "g" 7 none)
        (save_session (init "s" 10 (some "tok")) [] none) (some "s")).1 = none
  ∧ (load_session (init "g" 7 none)
        (save_session (init "s" 10 (some "tok")) [] none) (some "s")).2.token
      = some "tok"
  ∧ authHeader (load_session (init "g" 7 none)
        (save_session (init "s" 10 (some "tok")) [] none) (some "s")).2
      = some ("Token " ++ "tok")
  ∧ authHeader (init "s" 10 (some "tok")) = some ("Token " ++ "tok")
  ∧ gql_call (load_session (init "g" 7 none)
        (save_session (init "s" 10 (some "tok")) [] none) (some "s")).2 none
      = gql_call (init "s" 10 (some "tok")) none :=
  C5_roundtrip_nonempty_token "tok" "s" "g" 10 7 [] (by decide)

/-- C6: `check_session` returns false when no session artifact exists, and
otherwise, with `age = now - mtime`, returns true exactly when
`age < ttl`; in particular at the boundary `age = ttl` it returns
false. -/
theorem C6_check_session_ttl_boundary (ttl now m : Int) :
    (check_session none ttl now).1 = false
  ∧ (check_session (some ⟨some m⟩) ttl now).1 = decide (now - m < ttl)
  ∧ (check_session (some ⟨some m⟩) (now - m) now).1 = false := by
  refine ⟨rfl, ?_, ?_⟩
  · unfold check_session
    by_cases h : now - m < ttl <;> simp [h]
  · unfold check_session
    simp

/-- C7: for every session artifact that is expired (`age ≥ ttl`) or corrupt
(timestamp unreadable), `check_session` returns false and removes the
artifact, so that after the check no artifact exists. -/
theorem C7_expired_or_corrupt_cleared (ttl now : Int) (a : SessionArtifact)
    (h : a.mtime = none ∨ ∃ m, a.mtime = some m ∧ ttl ≤ now - m) :
    check_session (some a) ttl now = (false, none) := by
  rcases h with h | ⟨m, hm, hle⟩
  · simp [check_session, h]
  · simp [check_session, hm, not_lt.mpr hle]

/-- C7 witness (boundary case: age exactly equal to the ttl). -/
theorem C7_expired_or_corrupt_cleared_witness :
    check_session (some ⟨some 0⟩) 5 5 = (false, none) :=
  C7_expired_or_corrupt_cleared 5 5 ⟨some 0⟩ (Or.inr ⟨0, rfl, by decide⟩)

/-- C8: with `use_saved_session` true and a persisted artifact holding token
`t` at the configured location, `login` restores it directly — no
exception, token and Authorization header set, `Authenticated` reached —
without any network call and without validating the supplied email and
password (which may be absent or empty). -/
theorem C8_saved_session_short_circuits
    (f : String) (n : Nat) (fs : FS) (email password : Option String)
    (save_flag : Bool) (resp : LoginResp) (t : String)
    (h : fsGet fs f = some ⟨some t⟩) :
    (login (init f n none) fs email password true save_flag resp).exc = none
  ∧ (login (init f n none) fs email password true save_flag resp).st.token
      = some t
  ∧ isAuthenticated
      (login (init f n none) fs email password true save_flag resp).st = true
  ∧ authHeader
      (login (init f n none) fs email password true save_flag resp).st
      = some ("Token " ++ t)
  ∧ (login (init f n none) fs email password true save_flag resp).calls = []
  ∧ (login (init f n none) fs email password true save_flag resp).fs = fs := by
  have hd : dget fs f = some ⟨some t⟩ := h
  have hex : fsExists fs (init f n none).session_file = true := by
    simp [fsExists, init, h]
  unfold login
  rw [if_pos (by simp [hex])]
  unfold load_session
  simp [init, hd, fsGet, set_token, setHeader, isAuthenticated, authHeader,
    strTruthy, pyStr, dget_dset_self]

/-- C8 witness. -/
theorem C8_saved_session_short_circuits_witness :
    (login (init "f" 10 none) [("f", ⟨some "tok"⟩)] none (some "") true true
        ⟨500, "Server Error", none, ""⟩).exc = none
  ∧ (login (init "f" 10 none) [("f", ⟨some "tok"⟩)] none (some "") true true
        ⟨500, "Server Error", none, ""⟩).st.token = some "tok"
  ∧ isAuthenticated (login (init "f" 10 none) [("f", ⟨some "tok"⟩)] none
        (some "") true true ⟨500, "Server Error", none, ""⟩).st = true
  ∧ authHeader (login (init "f" 10 none) [("f", ⟨some "tok"⟩)] none
        (some "") true true ⟨500, "Server Error", none, ""⟩).st
      = some ("Token " ++ "tok")
  ∧ (login (init "f" 10 none) [("f", ⟨some "tok"⟩)] none (some "") true true
        ⟨500, "Server Error", none, ""⟩).calls = []
  ∧ (login (init "f" 10 none) [("f", ⟨some "tok"⟩)] none (some "") true true
        ⟨500, "Server Error", none, ""⟩).fs = [("f", ⟨some "tok"⟩)] :=
  C8_saved_session_short_circuits "f" 10 [("f", ⟨some "tok"⟩)] none (some "")
    true ⟨500, "Server Error", none, ""⟩ "tok" (by decide)

/-- C9: `set_token` updates only the stored token field and leaves the header
dict (including any existing Authorization entry) unchanged; the invariant
"Authorization header = 'Token ' ++ token" is established by the
constructor (when a truthy token is supplied), by `load_session`, by
`_login_user` on success, and by `_multi_factor_authenticate` on success —
but not by `set_token`: a fresh instance that only calls `set_token`
issues its GraphQL call with the base headers, which carry no
Authorization entry at all. -/
theorem C9_set_token_leaves_headers_unchanged
    (st : MMState) (t : String) (f p r x : String) (n : Nat) (tk : String)
    (htk : tk ≠ "") :
    (set_token st (some t)).headers = st.headers
  ∧ (set_token st (some t)).token = some t
  ∧ (set_token st (some t)).session_file = st.session_file
  ∧ (set_token st (some t)).timeout = st.timeout
  ∧ authHeader (init f n (some tk)) = some ("Token " ++ tk)
  ∧ authHeader (load_session (init f n none) [(p, ⟨some tk⟩)] (some p)).2
      = some ("Token " ++ tk)
  ∧ authHeader (login_user (init f n none) ⟨200, r, some [("token", tk)], x⟩).2
      = some ("Token " ++ tk)
  ∧ authHeader (multi_factor_authenticate (init f n none)
        ⟨200, r, some [("token", tk)], x⟩).2 = some ("Token " ++ tk)
  ∧ authHeader (set_token (init f n none) (some t)) = none
  ∧ gql_call (set_token (init f n none) (some t)) none
      = (none, [NetCall.graphqlPost baseHeaders none])
  ∧ dget baseHeaders "Authorization" = none := by
  have htr : strTruthy (some tk) = true := by simp [strTruthy, htk]
  refine ⟨rfl, rfl, rfl, rfl, ?_, ?_, ?_, ?_, rfl, rfl, by decide⟩
  · simp [authHeader, init, htr, pyStr, dget_dset_self]
  · unfold load_session
    simp [fsGet, dget, init, set_token, setHeader, authHeader, strTruthy,
      pyStr, dget_dset_self]
  · unfold login_user
    simp [dget, init, set_token, setHeader, authHeader, strTruthy, pyStr,
      dget_dset_self]
  · unfold multi_factor_authenticate
    simp [dget, init, set_token, setHeader, authHeader, strTruthy, pyStr,
      dget_dset_self]

/-- C9 witness. -/
theorem C9_set_token_leaves_headers_unchanged_witness :
    (set_token (init "f" 10 none) (some "t")).headers
        = (init "f" 10 none).headers
  ∧ (set_token (init "f" 10 none) (some "t")).token = some "t"
  ∧ (set_token (init "f" 10 none) (some "t")).session_file
        = (init "f" 10 none).session_file
  ∧ (set_token (init "f" 10 none) (some "t")).timeout
        = (init "f" 10 none).timeout
  ∧ authHeader (init "f" 10 (some "tk")) = some ("Token " ++ "tk")
  ∧ authHeader (load_session (init "f" 10 none) [("p", ⟨some "tk"⟩)]
        (some "p")).2 = some ("Token " ++ "tk")
  ∧ authHeader (login_user (init "f" 10 none)
        ⟨200, "OK", some [("token", "tk")], ""⟩).2 = some ("Token " ++ "tk")
  ∧ authHeader (multi_factor_authenticate (init "f" 10 none)
        ⟨200, "OK", some [("token", "tk")], ""⟩).2 = some ("Token " ++ "tk")
  ∧ authHeader (set_token (init "f" 10 none) (some "t")) = none
  ∧ gql_call (set_token (init "f" 10 none) (some "t")) none
      = (none, [NetCall.graphqlPost baseHeaders none])
  ∧ dget baseHeaders "Authorization" = none :=
  C9_set_token_leaves_headers_unchanged (init "f" 10 none) "t" "f" "p" "OK"
    "" 10 "tk" (by decide)

/-- C10: `get_transactions` with exactly one truthy date raises `Exception`
before issuing any network request; with both dates truthy the filters
carry both dates; with neither truthy no date filter is set, no error
occurs, and the GraphQL call is issued. -/
theorem C10_get_transactions_date_validation
    (st : MMState) (h : List (String × String)) (hh : st.headers = some h)
    (limit offset : Nat) (sd ed : Option String) (search : String)
    (cats accts tags : List String) :
    (strTruthy sd ≠ strTruthy ed →
      get_transactions st limit offset sd ed search cats accts tags
        = (some (.exception
            "You must specify both a startDate and endDate, not just one of them."),
           []))
  ∧ (strTruthy sd = true → strTruthy ed = true →
      get_transactions st limit offset sd ed search cats accts tags
        = (none, [NetCall.graphqlPost h
            (some ⟨offset, limit, "date", ⟨search, cats, accts, tags, sd, ed⟩⟩)]))
  ∧ (strTruthy sd = false → strTruthy ed = false →
      get_transactions st limit offset sd ed search cats accts tags
        = (none, [NetCall.graphqlPost h
            (some ⟨offset, limit, "date",
              ⟨search, cats, accts, tags, none, none⟩⟩)])) := by
  unfold get_transactions gql_call get_graphql_client
  rw [hh]
  cases hsd : strTruthy sd <;> cases hed : strTruthy ed <;> simp

/-- C10 witness (only a start date supplied: the error path). -/
theorem C10_get_transactions_date_validation_witness :
    get_transactions (init "f" 10 none) 100 0 (some "2023-01-01") none ""
        [] [] []
      = (some (.exception
          "You must specify both a startDate and endDate, not just one of them."),
         []) :=
  (C10_get_transactions_date_validation (init "f" 10 none) baseHeaders rfl
    100 0 (some "2023-01-01") none "" [] [] []).1 (by decide)

end MonarchMoneySDK
